import Mathlib

/-!
Verification development for the FatturaPA invoice-ingestion pipeline.

Shallow embedding of the ingestion subsystem:
  - `parseFatturaPAXML` (src/server/utils/xml-parser.ts revision of src/unnamed/part_012):
    schema parsing over the tree produced by the xml2js collaborator.
  - The duplicate check, stable-name derivation and the per-file pipeline
    `processFile` (src/server/routes.ts, upload handler).
  - Batch orchestration: sequential composition `runBatchSeq` and the
    scheduler model `runSched`, where a schedule interleaves the atomic
    await-delimited stages of each concurrently processed file.
  - The HTML row renderer for line items
    (src/server/utils/xslt-transformer.ts, generateHTMLFallback).
  - Signed-envelope extraction `extractWithNodeForge` / `extractXMLFromP7M`
    (src/server/utils/p7m-extractor.ts), with the node-forge library calls
    abstracted as function parameters.

JavaScript value conventions used throughout:
  - a possibly-null / possibly-undefined string is `Option String`
    (`none` models both `null` and `undefined`);
  - a JavaScript number is `Option Rat`, where `none` models `NaN`
    (float rounding is not modelled; all values exercised here are short
    decimal literals that are exact);
  - JS truthiness of strings and numbers is modelled explicitly below.
-/

/-- JavaScript number: `none` is `NaN`, `some q` a (finite) numeric value. -/
abbrev JSNum := Option ℚ

/-- JS `a || b` for a possibly-absent string `a`: `undefined`, `null` and the
empty string are falsy and select the default. -/
def jsOrStr (a : Option String) (b : String) : String :=
  match a with
  | some s => if s = "" then b else s
  | none => b

/-- JS `a || null` for a possibly-absent string: collapses the empty string
to `null` and keeps everything else. -/
def jsOrNull (a : Option String) : Option String :=
  match a with
  | some s => if s = "" then none else some s
  | none => none

/-- JS string truthiness on a possibly-null string value. -/
def jsStrTruthy (a : Option String) : Bool :=
  match a with
  | some s => s ≠ ""
  | none => false

/-- JS `x === 0` on a number: false for `NaN`. -/
def jsEqZero (v : JSNum) : Bool :=
  match v with
  | some q => q = 0
  | none => false

/-- JS `x !== 0` on a number: true for `NaN`. -/
def jsNeqZero (v : JSNum) : Bool :=
  match v with
  | some q => q ≠ 0
  | none => true

/-- JS number truthiness: `0` and `NaN` are falsy. -/
def jsNumTruthy (v : JSNum) : Bool :=
  match v with
  | some q => q ≠ 0
  | none => false

/-- Template-literal interpolation of a possibly-undefined string. -/
def jsTemplate (a : Option String) : String := a.getD "undefined"

/-- Leading decimal digits of a character list, and the rest. -/
def takeDigits : List Char → List Char × List Char
  | [] => ([], [])
  | c :: rest =>
      if c.isDigit then
        let (ds, r) := takeDigits rest
        (c :: ds, r)
      else ([], c :: rest)

/-- Numeric value of a digit list (most significant first). -/
def digitsVal (l : List Char) : Nat :=
  l.foldl (fun acc c => 10 * acc + (c.toNat - 48)) 0

/-- Optional sign: returns the sign factor and the rest. -/
def readSign : List Char → ℚ × List Char
  | '-' :: rest => (-1, rest)
  | '+' :: rest => (1, rest)
  | l => (1, l)

/-- Optional exponent suffix `e`/`E` with signed digits; absent or malformed
exponent text is ignored, as JS `parseFloat` stops at the first invalid
character. -/
def applyExp (q : ℚ) : List Char → ℚ
  | 'e' :: rest =>
      let (sgn, r) := readSign rest
      let (ds, _) := takeDigits r
      if ds = [] then q else q * (10 : ℚ) ^ (sgn.num * (digitsVal ds : ℤ))
  | 'E' :: rest =>
      let (sgn, r) := readSign rest
      let (ds, _) := takeDigits r
      if ds = [] then q else q * (10 : ℚ) ^ (sgn.num * (digitsVal ds : ℤ))
  | _ => q

/-- JS `parseFloat`: skip leading whitespace, optional sign, decimal digits
with optional fraction and exponent; `none` models `NaN` when no numeric
prefix exists.  (`Infinity` literals are not modelled; the repository only
feeds decimal invoice amounts to this function.) -/
def parseFloatQ (s : String) : JSNum :=
  let l := s.data.dropWhile Char.isWhitespace
  let (sgn, l1) := readSign l
  let (ip, l2) := takeDigits l1
  match l2 with
  | '.' :: l3 =>
      let (fp, l4) := takeDigits l3
      if ip = [] ∧ fp = [] then none
      else
        some (applyExp (sgn * ((digitsVal ip : ℚ) +
          (digitsVal fp : ℚ) / (10 : ℚ) ^ fp.length)) l4)
  | _ =>
      if ip = [] then none
      else some (applyExp (sgn * (digitsVal ip : ℚ)) l2)

/-- Integer part of a non-negative rational. -/
def ratIntPart (q : ℚ) : Nat := q.num.toNat / q.den

/-- Decimal digits of the fractional part, emitted until the remainder is
zero or the fuel runs out (JS prints at most 17 significant digits; all
values in this development are short exact decimals). -/
def fracDigits : Nat → ℚ → String
  | 0, _ => ""
  | fuel + 1, r =>
      if r = 0 then ""
      else
        let r10 := r * 10
        let d := ratIntPart r10
        toString d ++ fracDigits fuel (r10 - (d : ℚ))

/-- Rendering of a non-negative rational the way JS `Number.prototype.toString`
renders the corresponding double: no trailing fractional zeros, no fraction
dot for integers. -/
def posNumToString (q : ℚ) : String :=
  let ip := ratIntPart q
  let frac := q - (ip : ℚ)
  if frac = 0 then toString ip else toString ip ++ "." ++ fracDigits 20 frac

/-- JS `Number.prototype.toString` on our number model. -/
def jsNumToString (v : JSNum) : String :=
  match v with
  | none => "NaN"
  | some q => if q < 0 then "-" ++ posNumToString (-q) else posNumToString q

/-- Walks the reversed digit list inserting a separator before each digit
whose distance from the right end is a positive multiple of three. -/
def groupRevAux : List Char → Nat → List Char
  | [], _ => []
  | c :: rest, consumed =>
      if consumed ≠ 0 ∧ consumed % 3 = 0 then
        '.' :: c :: groupRevAux rest (consumed + 1)
      else c :: groupRevAux rest (consumed + 1)

/-- Digit grouping with `.` separators, Italian locale style, on a digit
string (most significant first). -/
def groupThousands (s : String) : String :=
  ⟨(groupRevAux s.data.reverse 0).reverse⟩

/-- Two-digit decimal rendering of a value below 100. -/
def twoDigits (n : Nat) : String :=
  if n < 10 then "0" ++ toString n else toString n

/-- The `formatNumber` helper of generateHTMLFallback
(src/server/utils/xslt-transformer.ts): `toLocaleString("it-IT")` with
exactly two fraction digits; `NaN` renders as `"0,00"`.  Rounding is
half-away-from-zero (the ECMA-402 default `halfExpand`). -/
def formatNumber (v : JSNum) : String :=
  match v with
  | none => "0,00"
  | some q =>
      let sign := if q < 0 then "-" else ""
      let cents := ratIntPart (|q| * 100 + 1 / 2)
      sign ++ groupThousands (toString (cents / 100)) ++ "," ++ twoDigits (cents % 100)

/-- Does `needle` occur at the head of `hay`. -/
def startsWithL : List Char → List Char → Bool
  | _, [] => true
  | [], _ :: _ => false
  | a :: as, b :: bs => a = b && startsWithL as bs

/-- Substring containment on character lists. -/
def containsSubL : List Char → List Char → Bool
  | [], needle => needle.isEmpty
  | l@(_ :: rest), needle => startsWithL l needle || containsSubL rest needle

/-- JS `String.prototype.includes`. -/
def strIncludes (hay pat : String) : Bool := containsSubL hay.data pat.data

/-! ## Data model: the xml2js tree shape consumed by parseFatturaPAXML

xml2js is called with explicitArray:false, so repeated elements surface as
arrays and single elements as plain objects; `ArrOr` captures that union.
Every element the parser dereferences is a field here; `none` models an
absent element (JS `undefined`). -/

/-- A value that xml2js returns either as a single object or as an array. -/
inductive ArrOr (α : Type) where
  | one : α → ArrOr α
  | many : List α → ArrOr α
deriving DecidableEq

/-- JS `Array.isArray(x) ? x[0] : x` on a possibly-absent value. -/
def arrFirst {α : Type} : ArrOr α → Option α
  | .one a => some a
  | .many l => l.head?

/-- JS `Array.isArray(x) ? x : [x]` (the payment-details normalisation). -/
def arrAll {α : Type} : ArrOr α → List α
  | .one a => [a]
  | .many l => l

structure AnagraficaT where
  Denominazione : Option String := none
  Nome : Option String := none
  Cognome : Option String := none
deriving DecidableEq

structure IdFiscaleIVAT where
  IdCodice : Option String := none
deriving DecidableEq

structure DatiAnagraficiT where
  Anagrafica : Option AnagraficaT := none
  IdFiscaleIVA : Option IdFiscaleIVAT := none
  CodiceFiscale : Option String := none
deriving DecidableEq

structure SedeT where
  Indirizzo : Option String := none
  NumeroCivico : Option String := none
  CAP : Option String := none
  Comune : Option String := none
  Provincia : Option String := none
  Nazione : Option String := none
deriving DecidableEq

structure PartyT where
  DatiAnagrafici : Option DatiAnagraficiT := none
  Sede : Option SedeT := none
  Contatti : Option String := none
deriving DecidableEq

structure DatiGeneraliDocumentoT where
  Numero : Option String := none
  Data : Option String := none
  TipoDocumento : Option String := none
  Divisa : Option String := none
  ImportoTotaleDocumento : Option String := none
deriving DecidableEq

structure DatiGeneraliT where
  DatiGeneraliDocumento : Option DatiGeneraliDocumentoT := none
deriving DecidableEq

structure ScontoMaggiorazioneT where
  Percentuale : Option String := none
deriving DecidableEq

structure CodiceArticoloT where
  CodiceValore : Option String := none
deriving DecidableEq

structure DettaglioLineeT where
  NumeroLinea : Option String := none
  CodiceArticolo : Option CodiceArticoloT := none
  Descrizione : Option String := none
  Quantita : Option String := none
  PrezzoUnitario : Option String := none
  PrezzoTotale : Option String := none
  AliquotaIVA : Option String := none
  ScontoMaggiorazione : Option ScontoMaggiorazioneT := none
deriving DecidableEq

structure DatiRiepilogoT where
  ImponibileImporto : Option String := none
  Imposta : Option String := none
deriving DecidableEq

structure DatiBeniServiziT where
  DatiRiepilogo : Option (ArrOr DatiRiepilogoT) := none
  DettaglioLinee : Option (ArrOr DettaglioLineeT) := none
deriving DecidableEq

structure DettaglioPagamentoT where
  ModalitaPagamento : Option String := none
  DataScadenzaPagamento : Option String := none
  ImportoPagamento : Option String := none
deriving DecidableEq

structure DatiPagamentoT where
  DettaglioPagamento : Option (ArrOr DettaglioPagamentoT) := none
deriving DecidableEq

structure BodyT where
  DatiGenerali : Option DatiGeneraliT := none
  DatiPagamento : Option DatiPagamentoT := none
  DatiBeniServizi : Option DatiBeniServiziT := none
deriving DecidableEq

structure HeaderT where
  CedentePrestatore : Option PartyT := none
  CessionarioCommittente : Option PartyT := none
deriving DecidableEq

structure FatturaT where
  FatturaElettronicaHeader : Option HeaderT := none
  FatturaElettronicaBody : Option (ArrOr BodyT) := none
deriving DecidableEq

/-- The top-level object returned by xml2js: the parser probes the root
element under each known namespace-prefixed key. -/
structure XmlRoot where
  FatturaElettronica : Option FatturaT := none
  FatturaElettronicaSemplificata : Option FatturaT := none
  pFatturaElettronica : Option FatturaT := none
  aFatturaElettronica : Option FatturaT := none
  bFatturaElettronica : Option FatturaT := none
  cFatturaElettronica : Option FatturaT := none
  dFatturaElettronicaSemplificata : Option FatturaT := none
deriving DecidableEq

/-! ## Canonical invoice representation (parser output) -/

structure LineItem where
  number : Option String
  code : Option String
  description : Option String
  quantity : JSNum
  unitPrice : JSNum
  total : JSNum
  vat : JSNum
  discount : JSNum
  hasQuantity : Bool
  hasTotalPrice : Bool
deriving DecidableEq

structure PaymentDetail where
  method : Option String
  amount : JSNum
  dueDate : Option String
deriving DecidableEq

structure InvoiceData where
  invoiceNumber : Option String
  invoiceDate : Option String
  supplierName : String
  supplierVat : Option String
  supplierFiscalCode : Option String
  supplierAddress : Option SedeT
  supplierContacts : Option String
  customerName : String
  customerVat : Option String
  customerAddress : Option SedeT
  totalAmount : JSNum
  taxableAmount : JSNum
  taxAmount : JSNum
  currency : String
  paymentMethod : Option String
  paymentDueDate : Option String
  paymentDetails : List PaymentDetail
  lineItems : List LineItem
  documentType : Option String
deriving DecidableEq, Inhabited

/-! ## InvoiceSchemaParser (parseFatturaPAXML) -/

/-- The single error message the catch-all of parseFatturaPAXML rethrows for
any internal failure (missing root, or a property access on `undefined`). -/
def parseFailMsg : String :=
  "Failed to parse FatturaPA XML. The file may be invalid or corrupted."

/-- Property access that throws on `undefined`, caught by the parser and
converted into the generic parse failure. -/
def req {α : Type} (o : Option α) : Except String α :=
  match o with
  | some a => .ok a
  | none => .error parseFailMsg

/-- The root-element probe: first truthy among the known namespace keys. -/
def rootFattura (root : XmlRoot) : Option FatturaT :=
  root.FatturaElettronica <|> root.FatturaElettronicaSemplificata <|>
    root.pFatturaElettronica <|> root.aFatturaElettronica <|>
    root.bFatturaElettronica <|> root.cFatturaElettronica <|>
    root.dFatturaElettronicaSemplificata

/-- The `Array.isArray(body) ? body[0] : body` normalisation of the body. -/
def fatturaBody (f : FatturaT) : Option BodyT :=
  f.FatturaElettronicaBody.bind arrFirst

/-- Display name: explicit denomination, else trimmed given plus family name. -/
def anagName (a : AnagraficaT) : String :=
  jsOrStr a.Denominazione (((a.Nome.getD "") ++ " " ++ (a.Cognome.getD "")).trim)

/-- Supplier VAT extraction: `supplierData.IdFiscaleIVA?.IdCodice || null`. -/
def supplierVatOf (sd : DatiAnagraficiT) : Option String :=
  jsOrNull (sd.IdFiscaleIVA.bind (fun x => x.IdCodice))

/-- One canonical line item per detail-line element. -/
def mkLine (line : DettaglioLineeT) : LineItem :=
  { number := line.NumeroLinea
    code := jsOrNull (line.CodiceArticolo.bind (fun x => x.CodiceValore))
    description := line.Descrizione
    quantity := parseFloatQ (jsOrStr line.Quantita "1")
    unitPrice := parseFloatQ (jsOrStr line.PrezzoUnitario "0")
    total := parseFloatQ (jsOrStr line.PrezzoTotale "0")
    vat := parseFloatQ (jsOrStr line.AliquotaIVA "0")
    discount :=
      match line.ScontoMaggiorazione.bind (fun x => x.Percentuale) with
      | some s => if s = "" then some 0 else parseFloatQ s
      | none => some 0
    hasQuantity := jsStrTruthy line.Quantita
    hasTotalPrice := jsNeqZero (parseFloatQ (jsOrStr line.PrezzoTotale "0")) }

/-- One payment-detail entry. -/
def mkPayment (p : DettaglioPagamentoT) : PaymentDetail :=
  { method := p.ModalitaPagamento
    amount := parseFloatQ (jsOrStr p.ImportoPagamento "0")
    dueDate := jsOrNull p.DataScadenzaPagamento }

/-- The schema parser over the xml2js tree (src/unnamed/part_012 revision of
src/server/utils/xml-parser.ts).  The nested matches model the JS property
accesses that throw a TypeError on `undefined`; the try/catch maps every
such failure to `parseFailMsg`. -/
def parseFatturaPAXML (root : XmlRoot) : Except String InvoiceData :=
  match rootFattura root with
  | none => .error parseFailMsg
  | some fattura =>
    match fattura.FatturaElettronicaHeader with
    | none => .error parseFailMsg
    | some header =>
      match header.CedentePrestatore with
      | none => .error parseFailMsg
      | some supplier =>
        match supplier.DatiAnagrafici with
        | none => .error parseFailMsg
        | some supplierData =>
          match supplierData.Anagrafica with
          | none => .error parseFailMsg
          | some sAnag =>
            match header.CessionarioCommittente with
            | none => .error parseFailMsg
            | some customer =>
              match customer.DatiAnagrafici with
              | none => .error parseFailMsg
              | some customerData =>
                match customerData.Anagrafica with
                | none => .error parseFailMsg
                | some cAnag =>
                  match fatturaBody fattura with
                  | none => .error parseFailMsg
                  | some body =>
                    match body.DatiGenerali with
                    | none => .error parseFailMsg
                    | some dg =>
                      match dg.DatiGeneraliDocumento with
                      | none => .error parseFailMsg
                      | some docData =>
                        let paymentDetails :=
                          match body.DatiPagamento.bind
                              (fun x => x.DettaglioPagamento) with
                          | none => [({} : DettaglioPagamentoT)]
                          | some v => arrAll v
                        let riepilogo :=
                          match body.DatiBeniServizi.bind
                              (fun x => x.DatiRiepilogo) with
                          | none => none
                          | some v => arrFirst v
                        let lineItems :=
                          match body.DatiBeniServizi.bind
                              (fun x => x.DettaglioLinee) with
                          | none => []
                          | some v => (arrAll v).map mkLine
                        .ok
                          { invoiceNumber := docData.Numero
                            invoiceDate := docData.Data
                            supplierName := anagName sAnag
                            supplierVat := supplierVatOf supplierData
                            supplierFiscalCode := jsOrNull supplierData.CodiceFiscale
                            supplierAddress := supplier.Sede
                            supplierContacts := supplier.Contatti
                            customerName := anagName cAnag
                            customerVat :=
                              jsOrNull (customerData.IdFiscaleIVA.bind
                                (fun x => x.IdCodice))
                            customerAddress := customer.Sede
                            totalAmount :=
                              parseFloatQ (jsOrStr docData.ImportoTotaleDocumento "0")
                            taxableAmount :=
                              parseFloatQ (jsOrStr
                                (riepilogo.bind (fun r => r.ImponibileImporto)) "0")
                            taxAmount :=
                              parseFloatQ (jsOrStr
                                (riepilogo.bind (fun r => r.Imposta)) "0")
                            currency := jsOrStr docData.Divisa "EUR"
                            paymentMethod :=
                              jsOrNull (paymentDetails.head?.bind
                                (fun p => p.ModalitaPagamento))
                            paymentDueDate :=
                              jsOrNull (paymentDetails.head?.bind
                                (fun p => p.DataScadenzaPagamento))
                            paymentDetails := paymentDetails.map mkPayment
                            lineItems := lineItems
                            documentType := docData.TipoDocumento }

/-! ## Record store and pipeline state (src/server/routes.ts upload handler,
storage collaborator of src/unnamed/part_011) -/

/-- The persisted invoice record, with the fields the upload handler writes
(`storage.createInvoice` argument plus generated id/createdAt). -/
structure Invoice where
  id : Nat
  filename : String
  originalFormat : String
  invoiceNumber : Option String
  invoiceDate : Option String
  supplierName : String
  supplierVat : Option String
  supplierFiscalCode : Option String
  customerName : String
  customerVat : Option String
  totalAmount : String
  taxAmount : String
  taxableAmount : String
  currency : String
  paymentMethod : Option String
  paymentDueDate : Option String
  status : String
  marked : Bool
  notes : Option String
  tags : Option (List String)
  xmlPath : String
  htmlPath : String
  pdfPath : String
  createdAt : Nat
deriving DecidableEq, Inhabited

/-- The per-file error record the catch block produces:
`{filename, error: error.message, code: error.code}`. -/
structure FileError where
  filename : String
  error : String
  code : Option String
deriving DecidableEq

/-- Outcome of one file pipeline: `{success: true, invoice}` or
`{success: false, error}`. -/
inductive FileResult where
  | success : Invoice → FileResult
  | failure : FileError → FileResult
deriving DecidableEq

def FileResult.isSuccess : FileResult → Bool
  | .success _ => true
  | .failure _ => false

def FileResult.isFailure : FileResult → Bool
  | .success _ => false
  | .failure _ => true

/-- The invoice of a successful result, pushed onto `results`. -/
def FileResult.invOf : FileResult → Option Invoice
  | .success inv => some inv
  | .failure _ => none

/-- The error record of a failed result, pushed onto `errors`. -/
def FileResult.errOf : FileResult → Option FileError
  | .success _ => none
  | .failure e => some e

/-- The filename a result reports (record field or error field). -/
def FileResult.fname : FileResult → String
  | .success inv => inv.filename
  | .failure e => e.filename

/-- Shared mutable state the concurrent file pipelines read and write: the
record store (append order) and the artifact file store, plus the id
counter standing in for `crypto.randomUUID()` and the `createdAt` clock. -/
structure PipeState where
  store : List Invoice := []
  fs : List (String × String) := []
  nextId : Nat := 0
deriving DecidableEq

/-- Artifact store lookup (`fs.stat` existence probe / `fs.readFile`). -/
def lookupFs : List (String × String) → String → Option String
  | [], _ => none
  | (p, v) :: rest, q => if q = p then some v else lookupFs rest q

/-- Artifact store write (`fs.writeFile`): newest entry wins. -/
def writeFs (st : PipeState) (p v : String) : PipeState :=
  { st with fs := (p, v) :: st.fs }

/-- One uploaded file: multer memory storage gives originalname and buffer
(the buffer is modelled as its decoded text). -/
structure UploadFile where
  originalname : String
  buffer : String
deriving DecidableEq

/-- The effectful collaborators the per-file pipeline awaits: signed-envelope
extraction, the xml2js string-to-tree parse, the HTML renderer and the
headless PDF renderer.  They are deterministic functions of their input,
matching the pure-given-input behaviour of the real calls. -/
structure Collaborators where
  extractP7M : String → Except String String
  xml2js : String → Option XmlRoot
  toHTML : String → Except String String
  genPDF : String → Except String String

/-- Storage directory constants (resolved by the paths collaborator; only
their distinctness matters to the pipeline). -/
def XML_DIR : String := "storage/xml"

def HTML_DIR : String := "storage/html"

def PDF_DIR : String := "storage/pdf"

/-- Models `path.join(dir, name)`. -/
def pathJoin (dir name : String) : String := dir ++ "/" ++ name

/-! ## DuplicateDetector and StableNamingStrategy (routes.ts lines 341-366) -/

/-- The duplicate check: some existing record agrees on invoiceNumber and
invoiceDate and on supplierVat or supplierFiscalCode (JS `===`, so two
nulls compare equal). -/
def isDuplicate (d : InvoiceData) (existing : List Invoice) : Bool :=
  existing.any fun inv =>
    inv.invoiceNumber == d.invoiceNumber && inv.invoiceDate == d.invoiceDate &&
      (inv.supplierVat == d.supplierVat ||
        inv.supplierFiscalCode == d.supplierFiscalCode)

/-- Sanitisation `invoiceNumber.replace(/[^a-zA-Z0-9]/g, "_")`. -/
def sanitizeInvoiceNumber (s : String) : String :=
  ⟨s.data.map fun c => if c.isAlphanum then c else '_'⟩

/-- Sanitisation `invoiceDate.replace(/[^0-9]/g, "")`. -/
def sanitizeDate (s : String) : String :=
  ⟨s.data.filter fun c => c.isDigit⟩

/-- The stable artifact base name `{safeInvoiceNumber}_{safeDate}`. -/
def stableFilename (num date : String) : String :=
  sanitizeInvoiceNumber num ++ "_" ++ sanitizeDate date

/-- The duplicate error message
`Fattura duplicata: {filename} (Numero: {n}, Data: {d})`. -/
def dupMsg (filename : String) (d : InvoiceData) : String :=
  "Fattura duplicata: " ++ filename ++ " (Numero: " ++ jsTemplate d.invoiceNumber ++
    ", Data: " ++ jsTemplate d.invoiceDate ++ ")"

/-- Message of the TypeError raised when `.replace` is called on an
undefined invoiceNumber or invoiceDate (quote marks of the runtime message
omitted). -/
def typeErrMsg : String := "Cannot read properties of undefined (reading replace)"

/-! ## IngestionOrchestrator: the per-file pipeline as a stage machine

Each constructor of `FileCtl` is a point where the real pipeline has
yielded to the event loop between its shared-state accesses: after the
duplicate check (which reads the record store) and after the artifact
writes (before `createInvoice` writes the record store).  `fileStep` is one
atomic stage; `processFile` chains the stages sequentially, which is the
behaviour of one file in isolation. -/

/-- Control state of one in-flight file pipeline. -/
inductive FileCtl where
  | start : FileCtl
  | checked : String → String → InvoiceData → Bool → FileCtl
  | created : String → InvoiceData → String → String → String → FileCtl
  | finished : FileResult → FileCtl
deriving DecidableEq

/-- The p7m extension probe `file.originalname.toLowerCase().endsWith(".p7m")`
(kept irreducible so that unification does not descend into the
well-founded recursion of the core string functions; the kernel still
evaluates it on concrete names). -/
@[irreducible] def isP7mName (s : String) : Bool :=
  (s.toLower).endsWith ".p7m"

/-- Extraction stage: p7m files go through the extractor collaborator,
anything else is decoded as UTF-8 text unchanged; also records
originalFormat. -/
def runExtract (cfg : Collaborators) (file : UploadFile) :
    Except String (String × String) :=
  if isP7mName file.originalname then
    match cfg.extractP7M file.buffer with
    | .error e => .error e
    | .ok xml => .ok (xml, "p7m")
  else .ok (file.buffer, "xml")

/-- Parse stage: xml2js then the schema parser; a rejected xml2js promise is
caught by the same catch-all as any schema failure. -/
def parseXml (cfg : Collaborators) (s : String) : Except String InvoiceData :=
  match cfg.xml2js s with
  | none => .error parseFailMsg
  | some root => parseFatturaPAXML root

/-- The record `storage.createInvoice` persists for a processed file. -/
def mkRecord (file : UploadFile) (fmt : String) (d : InvoiceData)
    (xmlN htmlN pdfN : String) (idv : Nat) : Invoice :=
  { id := idv
    filename := file.originalname
    originalFormat := fmt
    invoiceNumber := d.invoiceNumber
    invoiceDate := d.invoiceDate
    supplierName := d.supplierName
    supplierVat := d.supplierVat
    supplierFiscalCode := d.supplierFiscalCode
    customerName := d.customerName
    customerVat := d.customerVat
    totalAmount := jsNumToString d.totalAmount
    taxAmount := jsNumToString d.taxAmount
    taxableAmount := jsNumToString d.taxableAmount
    currency := d.currency
    paymentMethod := d.paymentMethod
    paymentDueDate := d.paymentDueDate
    status := "not_printed"
    marked := false
    notes := none
    tags := none
    xmlPath := xmlN
    htmlPath := htmlN
    pdfPath := pdfN
    createdAt := idv }

/-- Stage 1 of the per-file pipeline (routes.ts lines 327-349): extract,
parse, read the store and evaluate the duplicate check. -/
def stageStart (cfg : Collaborators) (file : UploadFile) (st : PipeState) :
    FileCtl × PipeState :=
  match runExtract cfg file with
  | .error e => (.finished (.failure ⟨file.originalname, e, none⟩), st)
  | .ok (xml, fmt) =>
      match parseXml cfg xml with
      | .error e => (.finished (.failure ⟨file.originalname, e, none⟩), st)
      | .ok d => (.checked xml fmt d (isDuplicate d st.store), st)

/-- Stage 2 (routes.ts lines 351-395): either raise the duplicate error or
derive the stable name, probe the three artifact paths up front and write
the absent ones; renderer failures abort the file but keep the writes
already performed. -/
def stageChecked (cfg : Collaborators) (file : UploadFile) (xml fmt : String)
    (d : InvoiceData) (dup : Bool) (st : PipeState) : FileCtl × PipeState :=
  if dup then
    (.finished (.failure
      ⟨file.originalname, dupMsg file.originalname d,
        some "DUPLICATE_INVOICE"⟩), st)
  else
    match d.invoiceNumber with
    | none => (.finished (.failure ⟨file.originalname, typeErrMsg, none⟩), st)
    | some num =>
        match d.invoiceDate with
        | none =>
            (.finished (.failure ⟨file.originalname, typeErrMsg, none⟩), st)
        | some date =>
            let base := stableFilename num date
            let xmlN := base ++ ".xml"
            let htmlN := base ++ ".html"
            let pdfN := base ++ ".pdf"
            let xmlP := pathJoin XML_DIR xmlN
            let htmlP := pathJoin HTML_DIR htmlN
            let pdfP := pathJoin PDF_DIR pdfN
            let xmlExists := (lookupFs st.fs xmlP).isSome
            let htmlExists := (lookupFs st.fs htmlP).isSome
            let pdfExists := (lookupFs st.fs pdfP).isSome
            let st1 := if xmlExists then st else writeFs st xmlP xml
            match cfg.toHTML xml with
            | .error e =>
                (.finished (.failure ⟨file.originalname, e, none⟩), st1)
            | .ok html =>
                let st2 := if htmlExists then st1 else writeFs st1 htmlP html
                match cfg.genPDF html with
                | .error e =>
                    (.finished (.failure ⟨file.originalname, e, none⟩), st2)
                | .ok pdf =>
                    let st3 := if pdfExists then st2 else writeFs st2 pdfP pdf
                    (.created fmt d xmlN htmlN pdfN, st3)

/-- Stage 3 (routes.ts lines 397-425): append the record to the store. -/
def stageCreated (file : UploadFile) (fmt : String) (d : InvoiceData)
    (xmlN htmlN pdfN : String) (st : PipeState) : FileCtl × PipeState :=
  let inv := mkRecord file fmt d xmlN htmlN pdfN st.nextId
  (.finished (.success inv),
    { st with store := st.store ++ [inv], nextId := st.nextId + 1 })

/-- One atomic stage of one file pipeline: each stage spans the code between
two yields to the event loop that touch the shared state. -/
def fileStep (cfg : Collaborators) (file : UploadFile) :
    FileCtl → PipeState → FileCtl × PipeState
  | .start, st => stageStart cfg file st
  | .checked xml fmt d dup, st => stageChecked cfg file xml fmt d dup st
  | .created fmt d xmlN htmlN pdfN, st => stageCreated file fmt d xmlN htmlN pdfN st
  | .finished r, st => (.finished r, st)

/-- One file processed in isolation: its three stages run back to back
(start, checked, created each advance or finish, so three steps always
reach `finished`; the fallback arm of the final match is unreachable
padding). -/
def processFile (cfg : Collaborators) (file : UploadFile) (st : PipeState) :
    PipeState × FileResult :=
  let (c1, st1) := fileStep cfg file .start st
  let (c2, st2) := fileStep cfg file c1 st1
  let (c3, st3) := fileStep cfg file c2 st2
  match c3 with
  | .finished r => (st3, r)
  | _ => (st3, .failure ⟨file.originalname, "unreachable", none⟩)

/-- The concurrent batch under an explicit interleaving: a schedule is a
list of file indices; each entry advances that file by one atomic stage,
all files sharing one `PipeState`.  `Promise.all` allows every such
interleaving of the await-delimited stages. -/
def runSched (cfg : Collaborators) (files : List UploadFile) :
    List Nat → PipeState → List FileCtl → PipeState × List FileCtl
  | [], st, ctls => (st, ctls)
  | i :: rest, st, ctls =>
      match files[i]?, ctls[i]? with
      | some f, some c =>
          let (c1, st1) := fileStep cfg f c st
          runSched cfg files rest st1 (ctls.set i c1)
      | _, _ => runSched cfg files rest st ctls

/-- The batch with each file run to completion in submission order (one of
the admissible schedules; per-file outcomes are collected in file order
exactly as `Promise.all` returns them). -/
def runBatchSeq (cfg : Collaborators) :
    List UploadFile → PipeState → PipeState × List FileResult
  | [], st => (st, [])
  | f :: fs, st =>
      let (st1, r) := processFile cfg f st
      let (st2, rs) := runBatchSeq cfg fs st1
      (st2, r :: rs)

/-- Terminal snapshot fields of the upload job (routes.ts lines 450-461):
results and errors accumulated from the settled per-file outcomes, and the
terminal status `errors.length === files.length ? "failed" : "completed"`. -/
structure BatchOutcome where
  results : List Invoice
  errors : List FileError
  status : String
deriving DecidableEq

def finalizeBatch (total : Nat) (rs : List FileResult) : BatchOutcome :=
  let results := rs.filterMap FileResult.invOf
  let errors := rs.filterMap FileResult.errOf
  { results := results
    errors := errors
    status := if errors.length = total then "failed" else "completed" }

/-- Two records agreeing on the composite deduplication key. -/
def recordsShareKey (a b : Invoice) : Bool :=
  a.invoiceNumber == b.invoiceNumber && a.invoiceDate == b.invoiceDate &&
    (a.supplierVat == b.supplierVat || a.supplierFiscalCode == b.supplierFiscalCode)

/-- Does the store hold two distinct records sharing the composite key. -/
def storeHasDupPair : List Invoice → Bool
  | [] => false
  | a :: rest => rest.any (recordsShareKey a) || storeHasDupPair rest

/-! ## ArtifactRenderer: line-item row rendering of generateHTMLFallback
(src/server/utils/xslt-transformer.ts lines 334-356) -/

/-- The `safe` helper: `v ?? ""`. -/
def safeStr (v : Option String) : String := v.getD ""

/-- The strings interpolated into one line-item table row. -/
structure RowDisplays where
  separator : String
  quantityDisplay : String
  unitPriceDisplay : String
  discountDisplay : String
  vatDisplay : String
  totalDisplay : String
deriving DecidableEq

/-- Cell contents for one line item: quantity is suppressed without the
quantity flag, unit price without the explicit-total flag, and discount,
VAT and total whenever `item.total === 0`. -/
def lineItemDisplays (currency : String) (item : LineItem) : RowDisplays :=
  { separator :=
      if !item.hasQuantity then
        "<tr><td colspan=\"7\"><div class=\"itemSeparator\"></div></td></tr>"
      else ""
    quantityDisplay := if item.hasQuantity then formatNumber item.quantity else ""
    unitPriceDisplay :=
      if item.hasTotalPrice then currency ++ " " ++ formatNumber item.unitPrice
      else ""
    discountDisplay :=
      if jsEqZero item.total then ""
      else if jsNumTruthy item.discount then formatNumber item.discount else "0,00"
    vatDisplay := if jsEqZero item.total then "" else formatNumber item.vat
    totalDisplay :=
      if jsEqZero item.total then ""
      else currency ++ " " ++ formatNumber item.total }

/-- The HTML row emitted for one line item. -/
def lineItemRow (currency : String) (item : LineItem) : String :=
  let ds := lineItemDisplays currency item
  ds.separator ++
    "<tr><td class=\"textCenter\">" ++ safeStr item.code ++
    "</td><td>" ++ safeStr item.description ++
    "</td><td class=\"import\">" ++ ds.quantityDisplay ++
    "</td><td class=\"import\">" ++ ds.unitPriceDisplay ++
    "</td><td class=\"import\">" ++ ds.discountDisplay ++
    "</td><td class=\"import\">" ++ ds.vatDisplay ++
    "</td><td class=\"import\">" ++ ds.totalDisplay ++
    "</td></tr>"

/-! ## SignedEnvelopeExtractor (src/server/utils/p7m-extractor.ts)

The node-forge library calls are abstract function parameters: `der` is the
net content extraction of the DER strategy (approach 1), `pem` of the
PEM-armoured strategy (approach 2), `attrVals` the candidate attribute
contents of approach 3, `utf8Str` the buffer decoded as UTF-8 text.
`cleanXMLContent` is repository code and is embedded concretely. -/

/-- Characters strictly before the first `>`, and everything after it. -/
def takeUntilGtL : List Char → Option (List Char × List Char)
  | [] => none
  | '>' :: rest => some ([], rest)
  | c :: rest =>
      match takeUntilGtL rest with
      | some (pre, post) => some (c :: pre, post)
      | none => none

/-- Global replacement of `<p:([a-zA-Z][^>]*)>` by `<$1>`; the fuel is the
input length, an upper bound on the scan positions. -/
def replacePOpen : Nat → List Char → List Char
  | 0, l => l
  | _ + 1, [] => []
  | fuel + 1, l =>
      match l with
      | '<' :: 'p' :: ':' :: c :: rest =>
          if c.isAlpha then
            match takeUntilGtL (c :: rest) with
            | some (grp, post) => '<' :: (grp ++ '>' :: replacePOpen fuel post)
            | none => '<' :: replacePOpen fuel ('p' :: ':' :: c :: rest)
          else '<' :: replacePOpen fuel ('p' :: ':' :: c :: rest)
      | c :: rest => c :: replacePOpen fuel rest
      | [] => []

/-- Global replacement of `</p:([a-zA-Z][^>]*)>` by `</$1>`. -/
def replacePClose : Nat → List Char → List Char
  | 0, l => l
  | _ + 1, [] => []
  | fuel + 1, l =>
      match l with
      | '<' :: '/' :: 'p' :: ':' :: c :: rest =>
          if c.isAlpha then
            match takeUntilGtL (c :: rest) with
            | some (grp, post) => '<' :: '/' :: (grp ++ '>' :: replacePClose fuel post)
            | none => '<' :: replacePClose fuel ('/' :: 'p' :: ':' :: c :: rest)
          else '<' :: replacePClose fuel ('/' :: 'p' :: ':' :: c :: rest)
      | c :: rest => c :: replacePClose fuel rest
      | [] => []

/-- Leading whitespace run and the remainder. -/
def wsRun : List Char → List Char × List Char
  | [] => ([], [])
  | c :: rest =>
      if c.isWhitespace then
        let (run, tail) := wsRun rest
        (c :: run, tail)
      else ([], c :: rest)

/-- Drops a literal prefix, if present. -/
def dropLit : List Char → List Char → Option (List Char)
  | l, [] => some l
  | [], _ :: _ => none
  | a :: as, b :: bs => if a = b then dropLit as bs else none

/-- Everything after the first `"`. -/
def afterQuote : List Char → Option (List Char)
  | [] => none
  | '"' :: rest => some rest
  | _ :: rest => afterQuote rest

/-- Global removal of `\s+xmlns:p="[^"]*"`. -/
def removeXmlnsP : Nat → List Char → List Char
  | 0, l => l
  | _ + 1, [] => []
  | fuel + 1, c :: rest =>
      if c.isWhitespace then
        let (_, tail) := wsRun (c :: rest)
        match dropLit tail ("xmlns:p=\"".data) with
        | some afterLit =>
            match afterQuote afterLit with
            | some post => removeXmlnsP fuel post
            | none => c :: removeXmlnsP fuel rest
        | none => c :: removeXmlnsP fuel rest
      else c :: removeXmlnsP fuel rest

/-- The namespace attribute the cleanup injects. -/
def nsAttr : String :=
  " xmlns=\"http://ivaservizi.agenziaentrate.gov.it/docs/xsd/fatture/v1.2\""

/-- First-match replacement of `<FatturaElettronica([^>]*)>` by
`<FatturaElettronica$1` plus the namespace attribute and `>`. -/
def insertNsAttr : Nat → List Char → List Char
  | 0, l => l
  | _ + 1, [] => []
  | fuel + 1, l@(c :: rest) =>
      if startsWithL l ("<FatturaElettronica".data) then
        match takeUntilGtL (l.drop ("<FatturaElettronica".length)) with
        | some (grp, post) =>
            ("<FatturaElettronica".data) ++ grp ++ (nsAttr.data) ++ '>' :: post
        | none => c :: insertNsAttr fuel rest
      else c :: insertNsAttr fuel rest

/-- The synthetic XML declaration prepended when absent. -/
def xmlDeclStr : String := "<?xml version=\"1.0\" encoding=\"UTF-8\"?>\n"

/-- The namespace probe of the cleanup pass. -/
def ivaNsProbe : String := "xmlns=\"http://ivaservizi.agenziaentrate.gov.it/"

/-- The cleanup pass (p7m-extractor.ts lines 134-170): strip null bytes,
strip `p:` prefixes and the `xmlns:p` declaration, ensure the FatturaPA
namespace and an XML declaration, and trim.  The `forge.util.decodeUtf8`
retry is modelled as the identity, since strings here are already decoded
text. -/
def cleanXMLContent (s : String) : String :=
  if s = "" then ""
  else
    let l0 := s.data.filter fun c => c ≠ '\x00'
    let l1 := replacePOpen l0.length l0
    let l2 := replacePClose l1.length l1
    let l3 := removeXmlnsP l2.length l2
    let s3 : String := ⟨l3⟩
    let s4 := if strIncludes s3 ivaNsProbe then s3 else ⟨insertNsAttr l3.length l3⟩
    let s5 :=
      if !(strIncludes s4 "<?xml") && strIncludes s4 "<FatturaElettronica" then
        xmlDeclStr ++ s4
      else s4
    s5.trim

/-- Prefix the outer catch of extractWithNodeForge puts on its rethrow. -/
def forgeFailPre : String := "node-forge extraction failed: "

def noContentMsg : String := "No valid XML content found in P7M file"

def notXmlMsg : String := "Extracted content does not appear to be valid XML"

/-- Approach-3 filter: a truthy attribute content containing `<?xml`. -/
def attrOk (t : Option String) : Bool :=
  match t with
  | some s => s ≠ "" && strIncludes s "<?xml"
  | none => false

/-- extractWithNodeForge (p7m-extractor.ts lines 19-103): DER first, then
PEM only when the DER strategy produced nothing and the UTF-8 text carries
a PEM armour marker, then the authenticated-attributes scan; the survivor
is cleaned and must contain an XML declaration. -/
def extractWithNodeForge {Buf : Type} (der pem : Buf → Option String)
    (utf8Str : Buf → String) (attrVals : Buf → List (Option String))
    (buf : Buf) : Except String String :=
  let x1 := der buf
  let x2 :=
    if jsStrTruthy x1 then x1
    else if strIncludes (utf8Str buf) "-----BEGIN" then pem buf
    else none
  let x3 :=
    if jsStrTruthy x2 then x2
    else ((attrVals buf).find? attrOk).bind fun t => t
  match x3 with
  | none => .error (forgeFailPre ++ noContentMsg)
  | some c =>
      if c = "" then .error (forgeFailPre ++ noContentMsg)
      else
        let cleaned := cleanXMLContent c
        if strIncludes cleaned "<?xml" then .ok cleaned
        else .error (forgeFailPre ++ notXmlMsg)

/-- extractXMLFromP7M (p7m-extractor.ts lines 3-13): node-forge first, byte
scanning fallback (a collaborator parameter here) only on its failure. -/
def extractXMLFromP7M {Buf : Type} (der pem : Buf → Option String)
    (utf8Str : Buf → String) (attrVals : Buf → List (Option String))
    (fallback : Buf → Except String String) (buf : Buf) : Except String String :=
  match extractWithNodeForge der pem utf8Str attrVals buf with
  | .ok s => .ok s
  | .error _ => fallback buf

/-! ## Claims -/

/-- C3: the duplicate check is true for a candidate against a collection iff
some existing record has equal invoiceNumber and equal invoiceDate and
(equal supplierVat or equal supplierFiscalCode); in particular a record
matching on VAT but not fiscal code is flagged, one matching on fiscal code
but not VAT is flagged, and one matching on neither identity field is not
flagged. -/
theorem duplicate_check_iff (d : InvoiceData) (l : List Invoice) :
    (isDuplicate d l = true ↔
      ∃ inv ∈ l, inv.invoiceNumber = d.invoiceNumber ∧
        inv.invoiceDate = d.invoiceDate ∧
        (inv.supplierVat = d.supplierVat ∨
          inv.supplierFiscalCode = d.supplierFiscalCode)) ∧
    (∀ inv ∈ l, inv.invoiceNumber = d.invoiceNumber →
      inv.invoiceDate = d.invoiceDate → inv.supplierVat = d.supplierVat →
      isDuplicate d l = true) ∧
    (∀ inv ∈ l, inv.invoiceNumber = d.invoiceNumber →
      inv.invoiceDate = d.invoiceDate →
      inv.supplierFiscalCode = d.supplierFiscalCode →
      isDuplicate d l = true) ∧
    ((∀ inv ∈ l, inv.supplierVat ≠ d.supplierVat ∧
        inv.supplierFiscalCode ≠ d.supplierFiscalCode) →
      isDuplicate d l = false) := by
  have hiff : isDuplicate d l = true ↔
      ∃ inv ∈ l, inv.invoiceNumber = d.invoiceNumber ∧
        inv.invoiceDate = d.invoiceDate ∧
        (inv.supplierVat = d.supplierVat ∨
          inv.supplierFiscalCode = d.supplierFiscalCode) := by
    simp [isDuplicate, List.any_eq_true, Bool.and_eq_true, Bool.or_eq_true,
      beq_iff_eq, and_assoc]
  refine ⟨hiff, ?_, ?_, ?_⟩
  · intro inv hmem hn hd hv
    exact hiff.mpr ⟨inv, hmem, hn, hd, Or.inl hv⟩
  · intro inv hmem hn hd hf
    exact hiff.mpr ⟨inv, hmem, hn, hd, Or.inr hf⟩
  · intro hall
    rcases h : isDuplicate d l with _ | _
    · rfl
    · rcases hiff.mp h with ⟨inv, hmem, _, _, hor⟩
      rcases hor with hv | hf
      · exact absurd hv (hall inv hmem).1
      · exact absurd hf (hall inv hmem).2

def c3data : InvoiceData :=
  { (default : InvoiceData) with
      invoiceNumber := some "77"
      invoiceDate := some "2024-03-01"
      supplierVat := some "IT123"
      supplierFiscalCode := some "CFNEW" }

def c3record : Invoice :=
  { (default : Invoice) with
      invoiceNumber := some "77"
      invoiceDate := some "2024-03-01"
      supplierVat := some "IT123"
      supplierFiscalCode := some "CFOLD" }

/-- Witness for C3: a record matching the candidate on VAT while the fiscal
codes differ is flagged duplicate. -/
theorem duplicate_check_iff_witness :
    c3record ∈ [c3record] ∧ c3record.supplierFiscalCode ≠ c3data.supplierFiscalCode ∧
      isDuplicate c3data [c3record] = true :=
  ⟨by simp, by decide,
    (duplicate_check_iff c3data [c3record]).2.1 c3record (by simp) rfl rfl rfl⟩

/-- C10: when both the candidate and an existing record carry no supplierVat
(the parser emits null for a missing IdFiscaleIVA), the VAT-equality
disjunct holds by null-equals-null, so equal invoiceNumber and invoiceDate
alone flag a duplicate even when the fiscal codes differ. -/
theorem both_null_vat_duplicate (d : InvoiceData) (inv : Invoice)
    (l : List Invoice) (hmem : inv ∈ l)
    (hn : inv.invoiceNumber = d.invoiceNumber)
    (hd : inv.invoiceDate = d.invoiceDate)
    (hv1 : d.supplierVat = none) (hv2 : inv.supplierVat = none) :
    isDuplicate d l = true ∧
      ∀ sd : DatiAnagraficiT, sd.IdFiscaleIVA = none → supplierVatOf sd = none := by
  constructor
  · simp only [isDuplicate, List.any_eq_true, Bool.and_eq_true, Bool.or_eq_true,
      beq_iff_eq]
    exact ⟨inv, hmem, ⟨hn, hd⟩, Or.inl (hv2.trans hv1.symm)⟩
  · intro sd hsd
    simp [supplierVatOf, hsd, jsOrNull]

def c10data : InvoiceData :=
  { (default : InvoiceData) with
      invoiceNumber := some "9"
      invoiceDate := some "2023-12-24"
      supplierVat := none
      supplierFiscalCode := some "AAA" }

def c10record : Invoice :=
  { (default : Invoice) with
      invoiceNumber := some "9"
      invoiceDate := some "2023-12-24"
      supplierVat := none
      supplierFiscalCode := some "BBB" }

/-- Witness for C10: both VAT fields null, fiscal codes different, duplicate
still flagged. -/
theorem both_null_vat_duplicate_witness :
    c10record.supplierFiscalCode ≠ c10data.supplierFiscalCode ∧
      isDuplicate c10data [c10record] = true :=
  ⟨by decide,
    (both_null_vat_duplicate c10data c10record [c10record]
      (by simp) rfl rfl rfl rfl).1⟩

/-- formatNumber always renders at least the decimal comma. -/
lemma formatNumber_ne_empty (v : JSNum) : formatNumber v ≠ "" := by
  cases v with
  | none => simp [formatNumber]
  | some q =>
      simp only [formatNumber]
      intro h
      have hl := congrArg String.length h
      simp [String.length_append] at hl
      exact absurd hl.1.2 (by decide)

/-- A string of the shape `a ++ " " ++ b` is nonempty. -/
lemma append_space_ne_empty (a b : String) : a ++ " " ++ b ≠ "" := by
  intro h
  have hl := congrArg String.length h
  simp [String.length_append] at hl
  exact absurd hl.1.2 (by decide)

/-- C9: a line item whose total is zero (hence whose explicit-total flag is
false) renders with blank discount, VAT and total cells, while a line item
with a nonzero total renders those three cells populated with the formatted
values. -/
theorem zero_total_blank_cells (currency : String) (item : LineItem) :
    ((item.total = some 0 ∧ item.hasTotalPrice = false) →
      (lineItemDisplays currency item).discountDisplay = "" ∧
      (lineItemDisplays currency item).vatDisplay = "" ∧
      (lineItemDisplays currency item).totalDisplay = "") ∧
    (∀ q : ℚ, item.total = some q → q ≠ 0 →
      (lineItemDisplays currency item).vatDisplay = formatNumber item.vat ∧
      (lineItemDisplays currency item).totalDisplay =
        currency ++ " " ++ formatNumber item.total ∧
      (lineItemDisplays currency item).discountDisplay =
        (if jsNumTruthy item.discount = true then formatNumber item.discount
          else "0,00") ∧
      (lineItemDisplays currency item).vatDisplay ≠ "" ∧
      (lineItemDisplays currency item).totalDisplay ≠ "" ∧
      (lineItemDisplays currency item).discountDisplay ≠ "") := by
  constructor
  · rintro ⟨hz, -⟩
    simp [lineItemDisplays, jsEqZero, hz]
  · intro q hq hne
    have hzero : jsEqZero item.total = false := by simp [jsEqZero, hq, hne]
    refine ⟨?_, ?_, ?_, ?_, ?_, ?_⟩ <;>
      simp only [lineItemDisplays, hzero, Bool.false_eq_true, if_false]
    · exact formatNumber_ne_empty item.vat
    · exact append_space_ne_empty currency (formatNumber item.total)
    · split
      · exact formatNumber_ne_empty item.discount
      · simp

def c9itemZero : LineItem :=
  { number := some "1", code := none, description := some "voce"
    quantity := some 1, unitPrice := some 5, total := some 0, vat := some 22
    discount := some 0, hasQuantity := true, hasTotalPrice := false }

def c9itemPos : LineItem :=
  { number := some "2", code := none, description := some "voce"
    quantity := some 1, unitPrice := some 61, total := some 61, vat := some 22
    discount := some 0, hasQuantity := true, hasTotalPrice := true }

/-- Witness for C9: the zero-total item renders blank cells; the 61-euro
item renders populated formatted cells. -/
theorem zero_total_blank_cells_witness :
    ((c9itemZero.total = some 0 ∧ c9itemZero.hasTotalPrice = false) ∧
      (lineItemDisplays "EUR" c9itemZero).discountDisplay = "" ∧
      (lineItemDisplays "EUR" c9itemZero).vatDisplay = "" ∧
      (lineItemDisplays "EUR" c9itemZero).totalDisplay = "") ∧
    ((lineItemDisplays "EUR" c9itemPos).vatDisplay = formatNumber c9itemPos.vat ∧
      (lineItemDisplays "EUR" c9itemPos).totalDisplay =
        "EUR" ++ " " ++ formatNumber c9itemPos.total ∧
      (lineItemDisplays "EUR" c9itemPos).discountDisplay =
        (if jsNumTruthy c9itemPos.discount = true then
          formatNumber c9itemPos.discount else "0,00") ∧
      (lineItemDisplays "EUR" c9itemPos).vatDisplay ≠ "" ∧
      (lineItemDisplays "EUR" c9itemPos).totalDisplay ≠ "" ∧
      (lineItemDisplays "EUR" c9itemPos).discountDisplay ≠ "") :=
  ⟨⟨⟨rfl, rfl⟩, (zero_total_blank_cells "EUR" c9itemZero).1 ⟨rfl, rfl⟩⟩,
    (zero_total_blank_cells "EUR" c9itemPos).2 61 rfl (by norm_num)⟩

/-- C6 (amended): when a numeric source element is absent (or empty, which
JS `||` treats the same), the parsed value is the parse of the hard-coded
default string: 1 for line-item quantity and 0 for the other numeric
fields; a present non-empty non-numeric text parses to NaN rather than 0;
and in neither case does the parse fail — the parse outcome is fixed by
the structural elements alone. -/
theorem numeric_default_amended
    (line : DettaglioLineeT) (root : XmlRoot) (fattura : FatturaT)
    (header : HeaderT) (supplier : PartyT) (sd : DatiAnagraficiT)
    (sAnag : AnagraficaT) (customer : PartyT) (cd : DatiAnagraficiT)
    (cAnag : AnagraficaT) (body : BodyT) (dg : DatiGeneraliT)
    (doc : DatiGeneraliDocumentoT)
    (h1 : rootFattura root = some fattura)
    (h2 : fattura.FatturaElettronicaHeader = some header)
    (h3 : header.CedentePrestatore = some supplier)
    (h4 : supplier.DatiAnagrafici = some sd)
    (h5 : sd.Anagrafica = some sAnag)
    (h6 : header.CessionarioCommittente = some customer)
    (h7 : customer.DatiAnagrafici = some cd)
    (h8 : cd.Anagrafica = some cAnag)
    (h9 : fatturaBody fattura = some body)
    (h10 : body.DatiGenerali = some dg)
    (h11 : dg.DatiGeneraliDocumento = some doc) :
    (∃ d, parseFatturaPAXML root = .ok d ∧
      (doc.ImportoTotaleDocumento = none → d.totalAmount = some 0) ∧
      (∀ s, doc.ImportoTotaleDocumento = some s → s ≠ "" → parseFloatQ s = none →
        d.totalAmount = none) ∧
      (body.DatiBeniServizi = none →
        d.taxableAmount = some 0 ∧ d.taxAmount = some 0)) ∧
    ((line.Quantita = none → (mkLine line).quantity = some 1) ∧
     (line.PrezzoUnitario = none → (mkLine line).unitPrice = some 0) ∧
     (line.PrezzoTotale = none → (mkLine line).total = some 0) ∧
     (line.AliquotaIVA = none → (mkLine line).vat = some 0) ∧
     (line.ScontoMaggiorazione = none → (mkLine line).discount = some 0) ∧
     (∀ s, line.PrezzoUnitario = some s → s ≠ "" → parseFloatQ s = none →
       (mkLine line).unitPrice = none)) := by
  have hq1 : parseFloatQ "1" = some 1 := by with_unfolding_all decide
  have hq0 : parseFloatQ "0" = some 0 := by with_unfolding_all decide
  constructor
  · simp only [parseFatturaPAXML, h1, h2, h3, h4, h5, h6, h7, h8, h9, h10, h11]
    refine ⟨_, rfl, ?_, ?_, ?_⟩
    · intro hnone
      simp [hnone, jsOrStr, hq0]
    · intro s hs hne hnan
      simp [hs, jsOrStr, hne, hnan]
    · intro hnone
      simp [hnone, jsOrStr, hq0]
  · refine ⟨?_, ?_, ?_, ?_, ?_, ?_⟩
    · intro h; simp [mkLine, h, jsOrStr, hq1]
    · intro h; simp [mkLine, h, jsOrStr, hq0]
    · intro h; simp [mkLine, h, jsOrStr, hq0]
    · intro h; simp [mkLine, h, jsOrStr, hq0]
    · intro h; simp [mkLine, h]
    · intro s hs hne hnan; simp [mkLine, hs, jsOrStr, hne, hnan]

def c6line : DettaglioLineeT :=
  { Descrizione := some "voce", PrezzoUnitario := some "abc" }

/-- Counterexample for C6 as stated: a detail line with the quantity element
absent parses to quantity 1, not 0, and a non-numeric unit price parses to
NaN, not 0. -/
theorem numeric_default_counterexample :
    c6line.Quantita = none ∧ (mkLine c6line).quantity = some 1 ∧
      ¬((mkLine c6line).quantity = some 0) ∧
      c6line.PrezzoUnitario = some "abc" ∧ (mkLine c6line).unitPrice = none ∧
      ¬((mkLine c6line).unitPrice = some 0) := by
  refine ⟨rfl, ?_, ?_, rfl, ?_, ?_⟩ <;> with_unfolding_all decide

def c6anag : AnagraficaT := { Denominazione := some "Ditta" }

def c6sd : DatiAnagraficiT := { Anagrafica := some c6anag }

def c6party : PartyT := { DatiAnagrafici := some c6sd }

def c6doc : DatiGeneraliDocumentoT :=
  { Numero := some "10", Data := some "2024-06-01" }

def c6dg : DatiGeneraliT := { DatiGeneraliDocumento := some c6doc }

def c6body : BodyT := { DatiGenerali := some c6dg }

def c6hdr : HeaderT :=
  { CedentePrestatore := some c6party, CessionarioCommittente := some c6party }

def c6fat : FatturaT :=
  { FatturaElettronicaHeader := some c6hdr
    FatturaElettronicaBody := some (ArrOr.one c6body) }

def c6root : XmlRoot := { FatturaElettronica := some c6fat }

/-- Witness for the amended C6: a structurally complete invoice with every
numeric element absent parses successfully with total 0, and the absent
quantity parses to 1. -/
theorem numeric_default_amended_witness :
    (∃ d, parseFatturaPAXML c6root = .ok d ∧ d.totalAmount = some 0) ∧
      (mkLine c6line).quantity = some 1 := by
  obtain ⟨⟨d, hok, htot, -, -⟩, hline⟩ :=
    numeric_default_amended c6line c6root c6fat c6hdr c6party c6sd c6anag
      c6party c6sd c6anag c6body c6dg c6doc rfl rfl rfl rfl rfl rfl rfl rfl
      rfl rfl rfl
  exact ⟨⟨d, hok, htot rfl⟩, hline.1 rfl⟩

def c7doc : DatiGeneraliDocumentoT :=
  { Numero := some "001"
    Data := some "2024-01-15"
    TipoDocumento := some "TD01"
    ImportoTotaleDocumento := some "1220.00" }

def c7linea : DettaglioLineeT :=
  { NumeroLinea := some "1"
    Descrizione := some "Servizio"
    Quantita := some "1.00"
    PrezzoUnitario := some "1000.00"
    PrezzoTotale := some "1000.00"
    AliquotaIVA := some "22.00" }

def c7body : BodyT :=
  { DatiGenerali := some { DatiGeneraliDocumento := some c7doc }
    DatiBeniServizi := some
      { DatiRiepilogo :=
          some (ArrOr.one
            { ImponibileImporto := some "1000.00", Imposta := some "220.00" })
        DettaglioLinee := some (ArrOr.one c7linea) } }

def c7supplier : PartyT :=
  { DatiAnagrafici := some
      { Anagrafica := some { Denominazione := some "Fornitore Srl" }
        IdFiscaleIVA := some { IdCodice := some "IT01234567890" }
        CodiceFiscale := some "FRNSRL80A01H501Z" } }

def c7customer : PartyT :=
  { DatiAnagrafici := some
      { Anagrafica := some { Denominazione := some "Cliente Spa" }
        IdFiscaleIVA := some { IdCodice := some "IT09876543210" } } }

/-- A well-formed FatturaPA v1.2 document: number 001, date 2024-01-15, one
line item, document total 1220.00 EUR (Divisa absent defaults to EUR). -/
def c7root : XmlRoot :=
  { FatturaElettronica := some
      { FatturaElettronicaHeader := some
          { CedentePrestatore := some c7supplier
            CessionarioCommittente := some c7customer }
        FatturaElettronicaBody := some (ArrOr.one c7body) } }

def c7cfg : Collaborators :=
  { extractP7M := fun _ => .error "not a p7m"
    xml2js := fun s => if s = "C7-XML-BYTES" then some c7root else none
    toHTML := fun s => .ok ("HTML-" ++ s)
    genPDF := fun s => .ok ("PDF-" ++ s) }

def c7file : UploadFile :=
  { originalname := "IT01234567890_00001.xml", buffer := "C7-XML-BYTES" }

set_option maxRecDepth 4000

/-- Counterexample for C7 as stated: ingesting the 1220.00-EUR document
persists totalAmount `"1220"` (`parseFloat("1220.00").toString()` drops the
fractional zeros), not `"1220.00"`. -/
theorem end_to_end_total_counterexample :
    (FileResult.invOf (processFile c7cfg c7file {}).2).map Invoice.totalAmount =
      some "1220" ∧ ¬(("1220" : String) = "1220.00") := by
  constructor
  · with_unfolding_all decide
  · decide

/-- C7 (amended): ingesting the well-formed document produces exactly one
record with status not_printed and totalAmount `"1220"`, under stable base
name 001_20240115, with the three artifact files written under that base
name with the xml, html and pdf extensions. -/
theorem end_to_end_amended :
    (processFile c7cfg c7file {}).1.store.length = 1 ∧
    (FileResult.invOf (processFile c7cfg c7file {}).2).map Invoice.status =
      some "not_printed" ∧
    (FileResult.invOf (processFile c7cfg c7file {}).2).map Invoice.totalAmount =
      some "1220" ∧
    stableFilename "001" "2024-01-15" = "001_20240115" ∧
    (FileResult.invOf (processFile c7cfg c7file {}).2).map Invoice.xmlPath =
      some "001_20240115.xml" ∧
    (FileResult.invOf (processFile c7cfg c7file {}).2).map Invoice.htmlPath =
      some "001_20240115.html" ∧
    (FileResult.invOf (processFile c7cfg c7file {}).2).map Invoice.pdfPath =
      some "001_20240115.pdf" ∧
    (lookupFs (processFile c7cfg c7file {}).1.fs
      (pathJoin XML_DIR "001_20240115.xml")).isSome = true ∧
    (lookupFs (processFile c7cfg c7file {}).1.fs
      (pathJoin HTML_DIR "001_20240115.html")).isSome = true ∧
    (lookupFs (processFile c7cfg c7file {}).1.fs
      (pathJoin PDF_DIR "001_20240115.pdf")).isSome = true := by
  refine ⟨?_, ?_, ?_, ?_, ?_, ?_, ?_, ?_, ?_, ?_⟩ <;> with_unfolding_all decide
/-- C8: on a buffer where the DER signed-data parse yields nothing but the
PEM-armoured parse succeeds with embedded XML content, extraction returns
the cleaned PEM-derived text rather than reporting failure; the PEM
strategy sits strictly after the binary strategy in the definition. -/
theorem pem_after_der {Buf : Type} (der pem : Buf → Option String)
    (utf8Str : Buf → String) (attrVals : Buf → List (Option String))
    (fallback : Buf → Except String String) (buf : Buf) (c : String)
    (hder : der buf = none)
    (hbegin : strIncludes (utf8Str buf) "-----BEGIN" = true)
    (hpem : pem buf = some c) (hc : c ≠ "")
    (hxml : strIncludes (cleanXMLContent c) "<?xml" = true) :
    extractWithNodeForge der pem utf8Str attrVals buf =
      .ok (cleanXMLContent c) ∧
    extractXMLFromP7M der pem utf8Str attrVals fallback buf =
      .ok (cleanXMLContent c) := by
  have h1 : extractWithNodeForge der pem utf8Str attrVals buf =
      .ok (cleanXMLContent c) := by
    simp [extractWithNodeForge, hder, hbegin, hpem, jsStrTruthy, hc, hxml]
  exact ⟨h1, by simp [extractXMLFromP7M, h1]⟩

def c8content : String :=
  "<?xml version=\"1.0\"?><FatturaElettronica xmlns=\"http://ivaservizi.agenziaentrate.gov.it/docs/xsd/fatture/v1.2\"><Dati>x</Dati></FatturaElettronica>"

def c8der : Unit → Option String := fun _ => none

def c8pem : Unit → Option String := fun _ => some c8content

def c8utf8 : Unit → String := fun _ => "-----BEGIN PKCS7-----MIIBOGUS-----END PKCS7-----"

def c8attrs : Unit → List (Option String) := fun _ => []

def c8fallback : Unit → Except String String := fun _ => .error "fallback unused"

/-- Witness for C8: with a failing DER strategy and a PEM armour carrying a
FatturaPA document, extraction returns the cleaned PEM text. -/
theorem pem_after_der_witness :
    c8der () = none ∧
      extractWithNodeForge c8der c8pem c8utf8 c8attrs () =
        .ok (cleanXMLContent c8content) :=
  ⟨rfl,
    (pem_after_der c8der c8pem c8utf8 c8attrs c8fallback () c8content rfl
      (by with_unfolding_all decide) rfl (by decide)
      (by with_unfolding_all decide)).1⟩

/-- C2 evidence: submitting two byte-identical files in one batch and
interleaving their stages so that both duplicate checks read the store
before either record is created (schedule 0,1,0,0,1,1 — a realizable
`Promise.all` interleaving, since the check and the record write are
separated by awaited artifact writes) persists two records sharing the
composite deduplication key; processing the same two files sequentially
rejects the second, showing the check itself is not at fault. -/
theorem concurrent_batch_violates_dedup_key :
    (runSched c7cfg [c7file, c7file] [0, 1, 0, 0, 1, 1] {}
        (List.replicate 2 FileCtl.start)).1.store.length = 2 ∧
    storeHasDupPair
      (runSched c7cfg [c7file, c7file] [0, 1, 0, 0, 1, 1] {}
        (List.replicate 2 FileCtl.start)).1.store = true ∧
    storeHasDupPair (runBatchSeq c7cfg [c7file, c7file] {}).1.store = false := by
  refine ⟨?_, ?_, ?_⟩ <;> with_unfolding_all decide


/-! ## Pipeline lemmas shared by the orchestration claims -/

/-- The duplicate check unfolded to its propositional content. -/
lemma isDuplicate_iff (d : InvoiceData) (l : List Invoice) :
    isDuplicate d l = true ↔
      ∃ inv ∈ l, inv.invoiceNumber = d.invoiceNumber ∧
        inv.invoiceDate = d.invoiceDate ∧
        (inv.supplierVat = d.supplierVat ∨
          inv.supplierFiscalCode = d.supplierFiscalCode) := by
  simp [isDuplicate, List.any_eq_true, Bool.and_eq_true, Bool.or_eq_true,
    beq_iff_eq, and_assoc]

/-- Stage 1 under successful extraction and parse. -/
lemma stageStart_eq (cfg : Collaborators) (file : UploadFile) (st : PipeState)
    (xml fmt : String) (d : InvoiceData)
    (hex : runExtract cfg file = .ok (xml, fmt))
    (hp : parseXml cfg xml = .ok d) :
    stageStart cfg file st =
      (.checked xml fmt d (isDuplicate d st.store), st) := by
  rw [stageStart.eq_def, hex]
  dsimp only
  rw [hp]

/-- The pipeline on a duplicate: no write, no record, the distinguished
error, state returned unchanged. -/
lemma processFile_dup (cfg : Collaborators) (file : UploadFile)
    (st : PipeState) (xml fmt : String) (d : InvoiceData)
    (hex : runExtract cfg file = .ok (xml, fmt))
    (hp : parseXml cfg xml = .ok d)
    (hdup : isDuplicate d st.store = true) :
    processFile cfg file st =
      (st, .failure
        { filename := file.originalname
          error := dupMsg file.originalname d
          code := some "DUPLICATE_INVOICE" }) := by
  have s1 : fileStep cfg file .start st = (.checked xml fmt d true, st) := by
    show stageStart cfg file st = _
    rw [stageStart_eq cfg file st xml fmt d hex hp, hdup]
  rw [processFile.eq_def, s1]
  dsimp only [fileStep, stageChecked]
  simp

lemma writeFs_fs (st : PipeState) (q w : String) :
    (writeFs st q w).fs = (q, w) :: st.fs := rfl

lemma writeFs_store (st : PipeState) (q w : String) :
    (writeFs st q w).store = st.store := rfl

lemma writeFs_nextId (st : PipeState) (q w : String) :
    (writeFs st q w).nextId = st.nextId := rfl

/-- The pipeline on a fresh invoice: conditional writes at the three stable
paths (each guarded by the up-front existence probe), then one appended
record. -/
lemma processFile_success (cfg : Collaborators) (file : UploadFile)
    (st : PipeState) (xml fmt : String) (d : InvoiceData)
    (num date html pdf : String)
    (hex : runExtract cfg file = .ok (xml, fmt))
    (hp : parseXml cfg xml = .ok d)
    (hdup : isDuplicate d st.store = false)
    (hnum : d.invoiceNumber = some num)
    (hdate : d.invoiceDate = some date)
    (hh : cfg.toHTML xml = .ok html)
    (hg : cfg.genPDF html = .ok pdf) :
    processFile cfg file st =
      (let base := stableFilename num date
       let xmlN := base ++ ".xml"
       let htmlN := base ++ ".html"
       let pdfN := base ++ ".pdf"
       let fs1 := if (lookupFs st.fs (pathJoin XML_DIR xmlN)).isSome then st.fs
                  else (pathJoin XML_DIR xmlN, xml) :: st.fs
       let fs2 := if (lookupFs st.fs (pathJoin HTML_DIR htmlN)).isSome then fs1
                  else (pathJoin HTML_DIR htmlN, html) :: fs1
       let fs3 := if (lookupFs st.fs (pathJoin PDF_DIR pdfN)).isSome then fs2
                  else (pathJoin PDF_DIR pdfN, pdf) :: fs2
       let inv := mkRecord file fmt d xmlN htmlN pdfN st.nextId
       ({ store := st.store ++ [inv], fs := fs3, nextId := st.nextId + 1 },
        .success inv)) := by
  have s1 : fileStep cfg file .start st = (.checked xml fmt d false, st) := by
    show stageStart cfg file st = _
    rw [stageStart_eq cfg file st xml fmt d hex hp, hdup]
  rw [processFile.eq_def, s1]
  dsimp only [fileStep]
  rw [stageChecked.eq_def]
  simp only [Bool.false_eq_true, if_false, hnum, hdate]
  rw [hh]
  dsimp only
  rw [hg]
  dsimp only [fileStep, stageCreated]
  simp [apply_ite PipeState.fs, apply_ite PipeState.store,
    apply_ite PipeState.nextId, writeFs_fs, writeFs_store, writeFs_nextId]

/-- A present mapping survives a conditional write that is guarded by
absence at the written path. -/
lemma lookupFs_keep_condWrite (fs0 fs : List (String × String))
    (q w p v : String) (hp0 : lookupFs fs0 p = some v)
    (hp : lookupFs fs p = some v) :
    lookupFs (if (lookupFs fs0 q).isSome = true then fs else (q, w) :: fs) p =
      some v := by
  by_cases hb : (lookupFs fs0 q).isSome = true
  · simpa [hb] using hp
  · have hne : p ≠ q := by
      intro h
      subst h
      rw [hp0] at hb
      simp at hb
    simp [hb, lookupFs, hne, hp]

/-- Present paths stay present across a conditional write. -/
lemma isSome_condWrite_mono (fs0 fs : List (String × String)) (q w p : String)
    (h : (lookupFs fs p).isSome = true) :
    (lookupFs (if (lookupFs fs0 q).isSome = true then fs else (q, w) :: fs)
      p).isSome = true := by
  by_cases hb : (lookupFs fs0 q).isSome = true
  · simpa [hb] using h
  · by_cases hpq : p = q <;> simp [hb, lookupFs, hpq, h]

/-- After a conditional write the written path is present either way. -/
lemma isSome_condWrite_self (fs0 fs : List (String × String)) (q w : String)
    (hsub : (lookupFs fs0 q).isSome = true → (lookupFs fs q).isSome = true) :
    (lookupFs (if (lookupFs fs0 q).isSome = true then fs else (q, w) :: fs)
      q).isSome = true := by
  by_cases hb : (lookupFs fs0 q).isSome = true
  · simp [hb, hsub hb]
  · simp [hb, lookupFs]

/-- A record created from the parsed data collides with that data. -/
lemma isDuplicate_append_self (d : InvoiceData) (l : List Invoice)
    (inv : Invoice) (hn : inv.invoiceNumber = d.invoiceNumber)
    (hd : inv.invoiceDate = d.invoiceDate)
    (hv : inv.supplierVat = d.supplierVat) :
    isDuplicate d (l ++ [inv]) = true :=
  (isDuplicate_iff d (l ++ [inv])).mpr ⟨inv, by simp, hn, hd, Or.inl hv⟩

/-- C1: a successfully ingested file never overwrites an existing artifact
file (each of the three artifacts is written only where the existence probe
found nothing), leaves all three stable-name artifacts present (so a retry
regenerates exactly the missing ones), adds exactly one record, and a
second run of the pipeline on byte-identical input fails with the
DUPLICATE_INVOICE error leaving the state exactly unchanged. -/
theorem idempotent_artifact_writes (cfg : Collaborators) (file : UploadFile)
    (st : PipeState) (xml fmt : String) (d : InvoiceData)
    (num date html pdf : String)
    (hex : runExtract cfg file = .ok (xml, fmt))
    (hp : parseXml cfg xml = .ok d)
    (hdup : isDuplicate d st.store = false)
    (hnum : d.invoiceNumber = some num)
    (hdate : d.invoiceDate = some date)
    (hh : cfg.toHTML xml = .ok html)
    (hg : cfg.genPDF html = .ok pdf) :
    ((processFile cfg file st).2).isSuccess = true ∧
    (processFile cfg file st).1.store.length = st.store.length + 1 ∧
    (∀ p v, lookupFs st.fs p = some v →
      lookupFs (processFile cfg file st).1.fs p = some v) ∧
    (∃ inv, (processFile cfg file st).2 = .success inv ∧
      (lookupFs (processFile cfg file st).1.fs
        (pathJoin XML_DIR inv.xmlPath)).isSome = true ∧
      (lookupFs (processFile cfg file st).1.fs
        (pathJoin HTML_DIR inv.htmlPath)).isSome = true ∧
      (lookupFs (processFile cfg file st).1.fs
        (pathJoin PDF_DIR inv.pdfPath)).isSome = true) ∧
    processFile cfg file (processFile cfg file st).1 =
      ((processFile cfg file st).1,
        .failure { filename := file.originalname
                   error := dupMsg file.originalname d
                   code := some "DUPLICATE_INVOICE" }) := by
  have heq := processFile_success cfg file st xml fmt d num date html pdf
    hex hp hdup hnum hdate hh hg
  rw [heq]
  dsimp only
  refine ⟨rfl, by simp, ?_, ?_, ?_⟩
  · intro p v hpv
    exact lookupFs_keep_condWrite st.fs _ _ pdf p v hpv
      (lookupFs_keep_condWrite st.fs _ _ html p v hpv
        (lookupFs_keep_condWrite st.fs _ _ xml p v hpv hpv))
  · refine ⟨_, rfl, ?_, ?_, ?_⟩
    · exact isSome_condWrite_mono st.fs _ _ pdf _
        (isSome_condWrite_mono st.fs _ _ html _
          (isSome_condWrite_self st.fs st.fs _ xml (fun h => h)))
    · exact isSome_condWrite_mono st.fs _ _ pdf _
        (isSome_condWrite_self st.fs _ _ html
          (fun h => isSome_condWrite_mono st.fs st.fs _ xml _ h))
    · exact isSome_condWrite_self st.fs _ _ pdf
        (fun h => isSome_condWrite_mono st.fs _ _ html _
          (isSome_condWrite_mono st.fs st.fs _ xml _ h))
  · exact processFile_dup cfg file _ xml fmt d hex hp
      (isDuplicate_append_self d st.store _ rfl rfl rfl)

/-- C4: when the duplicate check fires, the pipeline fails with the
distinguished code DUPLICATE_INVOICE, the message carries the filename and
the key fields of the conflicting invoice (which agrees with the candidate
on number and date), and the state is returned untouched: no artifact and
no record is written. -/
theorem duplicate_error_contract (cfg : Collaborators) (file : UploadFile)
    (st : PipeState) (xml fmt : String) (d : InvoiceData)
    (hex : runExtract cfg file = .ok (xml, fmt))
    (hp : parseXml cfg xml = .ok d)
    (hdup : isDuplicate d st.store = true) :
    processFile cfg file st =
      (st, .failure
        { filename := file.originalname
          error := dupMsg file.originalname d
          code := some "DUPLICATE_INVOICE" }) ∧
    dupMsg file.originalname d =
      "Fattura duplicata: " ++ file.originalname ++ " (Numero: " ++
        jsTemplate d.invoiceNumber ++ ", Data: " ++
        jsTemplate d.invoiceDate ++ ")" ∧
    ∃ inv ∈ st.store, inv.invoiceNumber = d.invoiceNumber ∧
      inv.invoiceDate = d.invoiceDate ∧
      (inv.supplierVat = d.supplierVat ∨
        inv.supplierFiscalCode = d.supplierFiscalCode) :=
  ⟨processFile_dup cfg file st xml fmt d hex hp hdup, rfl,
    (isDuplicate_iff d st.store).mp hdup⟩

/-- Invariant: a finished stage reports the filename of the processed file. -/
def ctlOK (file : UploadFile) : FileCtl → Prop
  | .finished r => r.fname = file.originalname
  | _ => True

lemma fileStep_ctlOK (cfg : Collaborators) (file : UploadFile) (c : FileCtl)
    (st : PipeState) (h : ctlOK file c) :
    ctlOK file (fileStep cfg file c st).1 := by
  cases c with
  | start =>
      show ctlOK file (stageStart cfg file st).1
      rw [stageStart.eq_def]
      rcases hex : runExtract cfg file with e | p
      · simp [ctlOK, FileResult.fname]
      · obtain ⟨xml, fmt⟩ := p
        dsimp only
        rcases hp : parseXml cfg xml with e | d <;>
          simp [ctlOK, FileResult.fname]
  | checked xml fmt d dup =>
      show ctlOK file (stageChecked cfg file xml fmt d dup st).1
      rw [stageChecked.eq_def]
      split
      · simp [ctlOK, FileResult.fname]
      · rcases d.invoiceNumber with _ | num
        · simp [ctlOK, FileResult.fname]
        · rcases d.invoiceDate with _ | date
          · simp [ctlOK, FileResult.fname]
          · dsimp only
            rcases cfg.toHTML xml with e | html
            · simp [ctlOK, FileResult.fname]
            · dsimp only
              rcases cfg.genPDF html with e | pdf <;>
                simp [ctlOK, FileResult.fname]
  | created fmt d xmlN htmlN pdfN =>
      simp [fileStep, stageCreated, ctlOK, FileResult.fname, mkRecord]
  | finished r =>
      exact h

lemma processFile_fname (cfg : Collaborators) (file : UploadFile)
    (st : PipeState) :
    ((processFile cfg file st).2).fname = file.originalname := by
  have k1 := fileStep_ctlOK cfg file .start st trivial
  rcases h1 : fileStep cfg file .start st with ⟨c1, st1⟩
  rw [h1] at k1
  have k2 := fileStep_ctlOK cfg file c1 st1 k1
  rcases h2 : fileStep cfg file c1 st1 with ⟨c2, st2⟩
  rw [h2] at k2
  have k3 := fileStep_ctlOK cfg file c2 st2 k2
  rcases h3 : fileStep cfg file c2 st2 with ⟨c3, st3⟩
  rw [h3] at k3
  rw [processFile.eq_def, h1]
  dsimp only
  rw [h2]
  dsimp only
  rw [h3]
  cases c3 with
  | finished r => exact k3
  | start => rfl
  | checked xml fmt d dup => rfl
  | created fmt d a b e => rfl

lemma runBatchSeq_length (cfg : Collaborators) (files : List UploadFile)
    (st : PipeState) :
    ((runBatchSeq cfg files st).2).length = files.length := by
  induction files generalizing st with
  | nil => rfl
  | cons f fs ih =>
      rw [runBatchSeq.eq_def]
      dsimp only
      rcases hp : processFile cfg f st with ⟨st1, r⟩
      rcases hb : runBatchSeq cfg fs st1 with ⟨st2, rs⟩
      have := ih st1
      rw [hb] at this
      simp only [hp, hb]
      simpa using this

lemma runBatchSeq_fname (cfg : Collaborators) (files : List UploadFile)
    (st : PipeState) :
    ∀ (i : Nat) (r : FileResult), ((runBatchSeq cfg files st).2)[i]? = some r →
      ∃ f, files[i]? = some f ∧ r.fname = f.originalname := by
  induction files generalizing st with
  | nil => intro i r h; simp [runBatchSeq] at h
  | cons f fs ih =>
      intro i r h
      rw [runBatchSeq.eq_def] at h
      dsimp only at h
      rcases hp : processFile cfg f st with ⟨st1, r1⟩
      rw [hp] at h
      dsimp only at h
      rcases hb : runBatchSeq cfg fs st1 with ⟨st2, rs⟩
      rw [hb] at h
      dsimp only at h
      cases i with
      | zero =>
          simp at h
          subst h
          refine ⟨f, by simp, ?_⟩
          have := processFile_fname cfg f st
          rw [hp] at this
          exact this
      | succ n =>
          simp only [List.getElem?_cons_succ] at h
          have := ih st1 n r
          rw [hb] at this
          obtain ⟨g, hg, hfn⟩ := this h
          exact ⟨g, by simpa using hg, hfn⟩

lemma length_filterMap_errOf (rs : List FileResult) :
    (rs.filterMap FileResult.errOf).length =
      rs.countP (fun r => r.isFailure) := by
  induction rs with
  | nil => rfl
  | cons r rs ih =>
      cases r <;>
        simp [List.filterMap_cons, FileResult.errOf, FileResult.isFailure,
          List.countP_cons, ih]

/-- C5: for a batch of files run to completion, one result is collected per
file (no failure aborts a sibling), the terminal status is failed iff every
file failed and completed otherwise, the terminal snapshot holds exactly
the successful invoices as results and one error entry per failed file, and
each error entry carries the filename of that file. -/
theorem batch_terminal_status (cfg : Collaborators) (files : List UploadFile)
    (st : PipeState) (hne : files ≠ []) :
    ((runBatchSeq cfg files st).2).length = files.length ∧
    ((finalizeBatch files.length ((runBatchSeq cfg files st).2)).status =
        "failed" ↔
      ∀ r ∈ (runBatchSeq cfg files st).2, r.isFailure = true) ∧
    ((finalizeBatch files.length ((runBatchSeq cfg files st).2)).status =
        "completed" ↔
      ∃ r ∈ (runBatchSeq cfg files st).2, r.isSuccess = true) ∧
    (finalizeBatch files.length ((runBatchSeq cfg files st).2)).results =
      ((runBatchSeq cfg files st).2).filterMap FileResult.invOf ∧
    (finalizeBatch files.length ((runBatchSeq cfg files st).2)).errors =
      ((runBatchSeq cfg files st).2).filterMap FileResult.errOf ∧
    (∀ (i : Nat) (e : FileError),
      ((runBatchSeq cfg files st).2)[i]? = some (.failure e) →
      ∃ f, files[i]? = some f ∧ e.filename = f.originalname) := by
  have hlen : ((runBatchSeq cfg files st).2).length = files.length :=
    runBatchSeq_length cfg files st
  have hcond :
      ((((runBatchSeq cfg files st).2).filterMap FileResult.errOf).length =
        files.length) ↔
      (∀ r ∈ (runBatchSeq cfg files st).2, r.isFailure = true) := by
    rw [length_filterMap_errOf, ← hlen]
    exact List.countP_eq_length
  refine ⟨hlen, ?_, ?_, rfl, rfl, ?_⟩
  · constructor
    · intro hst
      by_cases hc :
          (((runBatchSeq cfg files st).2).filterMap FileResult.errOf).length =
            files.length
      · exact hcond.mp hc
      · exfalso
        revert hst
        simp [finalizeBatch, hc]
    · intro hall
      simp [finalizeBatch, hcond.mpr hall]
  · constructor
    · intro hst
      by_cases hc :
          (((runBatchSeq cfg files st).2).filterMap FileResult.errOf).length =
            files.length
      · exfalso
        revert hst
        simp [finalizeBatch, hc]
      · have hnall : ¬(∀ r ∈ (runBatchSeq cfg files st).2, r.isFailure = true) :=
          fun hall => hc (hcond.mpr hall)
        push_neg at hnall
        obtain ⟨r, hr, hb⟩ := hnall
        refine ⟨r, hr, ?_⟩
        cases r with
        | success inv => rfl
        | failure e => simp [FileResult.isFailure] at hb
    · rintro ⟨r, hr, hs⟩
      by_cases hc :
          (((runBatchSeq cfg files st).2).filterMap FileResult.errOf).length =
            files.length
      · exfalso
        have := hcond.mp hc r hr
        cases r <;> simp_all [FileResult.isFailure, FileResult.isSuccess]
      · simp [finalizeBatch, hc]
  · intro i e h
    obtain ⟨f, hf, hfn⟩ := runBatchSeq_fname cfg files st i (.failure e) h
    exact ⟨f, hf, hfn⟩

def c5doc : DatiGeneraliDocumentoT :=
  { Numero := some "002", Data := some "2024-01-16",
    ImportoTotaleDocumento := some "50.00" }

def c5body : BodyT :=
  { DatiGenerali := some { DatiGeneraliDocumento := some c5doc } }

def c5fat : FatturaT :=
  { FatturaElettronicaHeader := some
      { CedentePrestatore := some c7supplier
        CessionarioCommittente := some c7customer }
    FatturaElettronicaBody := some (ArrOr.one c5body) }

def c5root : XmlRoot := { FatturaElettronica := some c5fat }

def c5cfg : Collaborators :=
  { extractP7M := fun _ => .error "unused"
    xml2js := fun s =>
      if s = "A" then some c7root else if s = "B" then some c5root else none
    toHTML := fun _ => .ok "H"
    genPDF := fun _ => .ok "P" }

def c5f1 : UploadFile := { originalname := "uno.xml", buffer := "A" }

def c5f2 : UploadFile := { originalname := "due.xml", buffer := "CORRUPT" }

def c5f3 : UploadFile := { originalname := "tre.xml", buffer := "B" }

/-- Witness for C5: three files of which the second is unparseable yield a
completed job with two results and one error naming the second file. -/
theorem batch_terminal_status_witness :
    ([c5f1, c5f2, c5f3] ≠ ([] : List UploadFile)) ∧
    ((finalizeBatch 3 ((runBatchSeq c5cfg [c5f1, c5f2, c5f3] {}).2)).status =
        "completed" ↔
      ∃ r ∈ (runBatchSeq c5cfg [c5f1, c5f2, c5f3] {}).2,
        r.isSuccess = true) ∧
    (finalizeBatch 3 ((runBatchSeq c5cfg [c5f1, c5f2, c5f3] {}).2)).status =
      "completed" ∧
    (finalizeBatch 3
      ((runBatchSeq c5cfg [c5f1, c5f2, c5f3] {}).2)).results.length = 2 ∧
    (finalizeBatch 3 ((runBatchSeq c5cfg [c5f1, c5f2, c5f3] {}).2)).errors.map
      FileError.filename = ["due.xml"] := by
  refine ⟨by decide,
    (batch_terminal_status c5cfg [c5f1, c5f2, c5f3] {} (by decide)).2.2.1,
    ?_, ?_, ?_⟩ <;> with_unfolding_all decide

/-- The parsed canonical data of the c7 fixture document. -/
def c7d : InvoiceData :=
  ((parseXml c7cfg "C7-XML-BYTES").toOption).getD default

/-- Witness for C1: ingesting the c7 document into the empty state succeeds,
and a second run on the byte-identical file fails with DUPLICATE_INVOICE
leaving the state unchanged. -/
theorem idempotent_artifact_writes_witness :
    runExtract c7cfg c7file = .ok ("C7-XML-BYTES", "xml") ∧
    ((processFile c7cfg c7file {}).2).isSuccess = true ∧
    processFile c7cfg c7file (processFile c7cfg c7file {}).1 =
      ((processFile c7cfg c7file {}).1,
        .failure { filename := c7file.originalname
                   error := dupMsg c7file.originalname c7d
                   code := some "DUPLICATE_INVOICE" }) := by
  have h := idempotent_artifact_writes c7cfg c7file {} "C7-XML-BYTES" "xml"
    c7d "001" "2024-01-15" "HTML-C7-XML-BYTES" "PDF-HTML-C7-XML-BYTES"
    (by with_unfolding_all rfl) (by with_unfolding_all rfl) rfl
    (by with_unfolding_all decide) (by with_unfolding_all decide)
    (by with_unfolding_all rfl) (by with_unfolding_all rfl)
  exact ⟨by with_unfolding_all rfl, h.1, h.2.2.2.2⟩

/-- A pre-existing record carrying the business key of the c7 document. -/
def c4inv : Invoice :=
  { (default : Invoice) with
      invoiceNumber := some "001"
      invoiceDate := some "2024-01-15"
      supplierVat := some "IT01234567890"
      supplierFiscalCode := some "ALTRO" }

def c4st : PipeState := { store := [c4inv] }

/-- Witness for C4: ingesting the c7 document against a store holding a
record with the same number, date and VAT fails with the distinguished
duplicate error and leaves the state untouched. -/
theorem duplicate_error_contract_witness :
    isDuplicate c7d c4st.store = true ∧
    processFile c7cfg c7file c4st =
      (c4st, .failure { filename := c7file.originalname
                        error := dupMsg c7file.originalname c7d
                        code := some "DUPLICATE_INVOICE" }) := by
  have h := duplicate_error_contract c7cfg c7file c4st "C7-XML-BYTES" "xml"
    c7d (by with_unfolding_all rfl) (by with_unfolding_all rfl)
    (by with_unfolding_all decide)
  exact ⟨by with_unfolding_all decide, h.1⟩
